import Mathlib

/-!
Verification of the resilient data-acquisition layer of fund_quant_bot.

The Lean definitions below are shallow embeddings of the Python source:

* `PersistentCache.get` / `PersistentCache.set`  — src/data_layer.py, class PersistentCache
* `DataSource.isAvailable` / `recordSuccess` / `recordFailure` — src/data_layer.py, class DataSource
* `registryGetSources`    — src/data_layer.py, DataSourceRegistry.get_sources
* `fetchWithFallback`     — src/data_layer.py, DataFetcher.fetch_with_fallback
* `parsePercent`          — src/backend/services/sector_flow_service.py, _parse_percent
* `parseCnAmountToYi`     — src/backend/services/sector_flow_service.py, _parse_cn_amount_to_yi
* `isMissing`             — src/backend/services/sector_flow_service.py, _is_missing
* `sectorFundFlowCore`    — src/backend/services/sector_flow_service.py, sector_fund_flow_core
* `isNavSettled`, `fetchFundGzNormalize` — src/backend/portfolio_service.py

Modelling conventions: Python floats (values and wall-clock times from
time.time()) are modelled as ℚ; machine exceptions as `Except String`;
Python's None / "no data" as `Option`.  Strings manipulated character by
character are modelled as `List Char` (a Python `str` is a sequence of
code points, as is `String.data`).
-/

/-! ## Character-level string helpers (Python str methods used by the parsers) -/

/-- Drop leading whitespace characters (one side of Python `str.strip()`). -/
def dropLeadingWs : List Char → List Char
  | [] => []
  | c :: rest => if c.isWhitespace then dropLeadingWs rest else c :: rest

/-- Python `str.strip()`: remove leading and trailing whitespace. -/
def trimChars (cs : List Char) : List Char :=
  (dropLeadingWs (dropLeadingWs cs.reverse).reverse)

/-- Python `str.replace(",", "")`: the replaced pattern is a single character,
so this is exactly a filter. -/
def removeCommas (cs : List Char) : List Char :=
  cs.filter (fun c => c != ',')

/-- Python `str.lower()` (the sentinel strings involved are ASCII plus an
em dash, on which `Char.toLower` agrees with Python). -/
def lowerChars (cs : List Char) : List Char :=
  cs.map Char.toLower

/-- Accumulate a decimal digit string into a natural number; `none` when a
non-digit character occurs. -/
def digitsToNat : List Char → Nat → Option Nat
  | [], acc => some acc
  | c :: rest, acc =>
      if c.isDigit then digitsToNat rest (acc * 10 + (c.toNat - 48)) else none

/-- Split a character list at the first dot: returns the part before and,
if a dot is present, the part after it. -/
def splitAtDot : List Char → List Char × Option (List Char)
  | [] => ([], none)
  | c :: rest =>
      if c = '.' then ([], some rest)
      else
        let r := splitAtDot rest
        (c :: r.1, r.2)

/-- Decimal literal parsed into sign / integer part / fraction digits / fraction
length.  All-`Nat` so that concrete inputs evaluate inside `decide`. -/
structure DecimalParts where
  neg : Bool
  intPart : Nat
  fracPart : Nat
  fracLen : Nat
  deriving DecidableEq, Repr

/-- Character-level stage of Python `float(s)` on plain decimal literals
(optional sign, digits, optional dot and fraction digits).  Exponent,
infinity and underscore forms are outside the subset exercised by the
source strings this development evaluates and yield `none`. -/
def parseDecimal (cs0 : List Char) : Option DecimalParts :=
  let signAndRest : Bool × List Char :=
    match cs0 with
    | '-' :: rest => (true, rest)
    | '+' :: rest => (false, rest)
    | cs => (false, cs)
  let parts := splitAtDot signAndRest.2
  match parts.2 with
  | none =>
      if parts.1.isEmpty then none
      else (digitsToNat parts.1 0).map (fun n => ⟨signAndRest.1, n, 0, 0⟩)
  | some fcs =>
      if fcs.any (fun c => c = '.') then none
      else if parts.1.isEmpty && fcs.isEmpty then none
      else
        match digitsToNat parts.1 0, digitsToNat fcs 0 with
        | some n, some f => some ⟨signAndRest.1, n, f, fcs.length⟩
        | _, _ => none

/-- Rational value of a parsed decimal literal. -/
def ratOfDecimal (d : DecimalParts) : ℚ :=
  (if d.neg then -1 else 1) * ((d.intPart : ℚ) + (d.fracPart : ℚ) / (10 : ℚ) ^ d.fracLen)

/-- Python `float(s)` on decimal literals, as a rational. -/
def pyFloat (cs : List Char) : Option ℚ :=
  (parseDecimal cs).map ratOfDecimal

/-! ## Python scalar values fed to the tolerant parsers -/

/-- A Python value reaching `_parse_percent` / `_parse_cn_amount_to_yi` /
`_is_missing`: None, a float NaN, a finite number (int or float), or a
string.  For a finite number `x`, Python's `str(x)` round-trips through
`float` to the same value and is never a missing sentinel, never ends in
`%`, and contains no comma; the embeddings use that fact directly. -/
inductive PyVal where
  | none
  | nan
  | num (q : ℚ)
  | str (s : List Char)

/-- Missing sentinels checked by `_parse_percent` and `_parse_cn_amount_to_yi`
(after strip and comma removal): "--", "-", "—", "", "None", "nan", "NaN". -/
def amountSentinels : List (List Char) :=
  ["--".data, "-".data, "—".data, [], "None".data, "nan".data, "NaN".data]

/-- src/backend/services/sector_flow_service.py lines 35–44, `_is_missing`. -/
def isMissing : PyVal → Bool
  | .none => true
  | .nan => true
  | .num _ => false
  | .str s =>
      let t := lowerChars (trimChars s)
      decide (t ∈ ([[], "--".data, "-".data, "—".data, "none".data, "nan".data] : List (List Char)))

/-- src/backend/services/sector_flow_service.py lines 83–99, `_parse_percent`.
Returns a plain float (ℚ); any unparsable or sentinel input maps to 0. -/
def parsePercent : PyVal → ℚ
  | .none => 0
  | .nan => 0
  | .num q => q
  | .str s0 =>
      let s := removeCommas (trimChars s0)
      if s ∈ amountSentinels then 0
      else
        let s2 := if s.getLast? = some '%' then s.dropLast else s
        (pyFloat s2).getD 0

/-- src/backend/services/sector_flow_service.py lines 102–140,
`_parse_cn_amount_to_yi`.  Output unit is 亿元 (10^8 yuan): a plain number
with magnitude at least 10^6 is taken to be yuan and divided by 10^8, a
small plain number is taken to already be in 亿, and the suffixes 亿/万/元
scale by 1, 1/10^4 and 1/10^8 respectively.  The trailing try/except
returns 0 when the prefix before a recognised suffix fails to parse. -/
def parseCnAmountToYi : PyVal → ℚ
  | .none => 0
  | .nan => 0
  | .num q => if (10 : ℚ) ^ 6 ≤ |q| then q / (10 : ℚ) ^ 8 else q
  | .str s0 =>
      let s := removeCommas (trimChars s0)
      if s ∈ amountSentinels then 0
      else
        match pyFloat s with
        | some v => if (10 : ℚ) ^ 6 ≤ |v| then v / (10 : ℚ) ^ 8 else v
        | none =>
            if s.getLast? = some '亿' then (pyFloat s.dropLast).getD 0
            else if s.getLast? = some '万' then
              ((pyFloat s.dropLast).map (fun v => v / 10000)).getD 0
            else if s.getLast? = some '元' then
              ((pyFloat s.dropLast).map (fun v => v / (10 : ℚ) ^ 8)).getD 0
            else 0

/-- Value in base currency units (yuan) of an amount expressed in the
function's output unit 亿元. -/
def yuanOfYi (v : ℚ) : ℚ := v * (10 : ℚ) ^ 8


/-! ## Persistent cache (src/data_layer.py, class PersistentCache)

The SQLite table `cache(key PRIMARY KEY, value, created_at, expires_at)` is
modelled as an association list with at most one live entry per key
(`INSERT OR REPLACE`).  Cached values are the pipeline's data values,
modelled as ℚ; `created_at`/`expires_at` are ℚ timestamps. -/

structure CacheEntry where
  value : ℚ
  created_at : ℚ
  expires_at : ℚ
  deriving DecidableEq

/-- The rows of the cache table. -/
abbrev CacheDB := List (String × CacheEntry)

/-- The row stored under a key, regardless of expiry. -/
def cacheFind (db : CacheDB) (k : String) : Option CacheEntry :=
  (db.find? (fun p => p.1 == k)).map (fun p => p.2)

/-- src/data_layer.py lines 51–69, `PersistentCache.get`: the SQL query
selects the row only when `expires_at > now`; otherwise the read misses,
even though the row may still be present. -/
def PersistentCache.get (db : CacheDB) (k : String) (now : ℚ) : Option ℚ :=
  match cacheFind db k with
  | some e => if now < e.expires_at then some e.value else Option.none
  | Option.none => Option.none

/-- src/data_layer.py lines 71–91, `PersistentCache.set` with the effective
TTL (the Python default `ttl or self.ttl_seconds` is resolved by the
caller): `INSERT OR REPLACE` with `expires_at = now + ttl`. -/
def PersistentCache.set (db : CacheDB) (k : String) (v ttl now : ℚ) : CacheDB :=
  (k, ⟨v, now, now + ttl⟩) :: db.filter (fun p => p.1 != k)


/-! ## Circuit breaker (src/data_layer.py, class DataSource) -/

/-- src/data_layer.py lines 106–133.  The breaker constants are the ones set
in `__init__`: threshold 3, cooldown 300 seconds. -/
structure DataSource where
  name : String
  priority : ℤ
  fail_count : ℕ
  last_fail_time : ℚ
  deriving DecidableEq

/-- src/data_layer.py lines 117–126, `DataSource.is_available`.  Returns the
boolean answer together with the updated source: when the cooldown has
elapsed the method resets `fail_count` to 0 as a side effect. -/
def DataSource.isAvailable (s : DataSource) (now : ℚ) : Bool × DataSource :=
  if s.fail_count < 3 then (true, s)
  else if now - s.last_fail_time > 300 then (true, { s with fail_count := 0 })
  else (false, s)

/-- src/data_layer.py lines 128–129, `DataSource.record_success`. -/
def DataSource.recordSuccess (s : DataSource) : DataSource :=
  { s with fail_count := 0 }

/-- src/data_layer.py lines 131–133, `DataSource.record_failure`. -/
def DataSource.recordFailure (s : DataSource) (now : ℚ) : DataSource :=
  { s with fail_count := s.fail_count + 1, last_fail_time := now }


/-! ## Source registry (src/data_layer.py, class DataSourceRegistry)

`self.sources` is a dict from data_type to a name-keyed dict of sources;
both are modelled as association lists (Python dicts preserve insertion
order, and name-keyed storage keeps each source name unique). -/

abbrev Registry := List (String × List DataSource)

/-- The sources registered under a data_type (`self.sources[data_type].values()`),
or [] when the data_type is absent. -/
def registeredSources (reg : Registry) (dt : String) : List DataSource :=
  match reg.find? (fun p => p.1 == dt) with
  | some p => p.2
  | Option.none => []

/-- Availability filtering pass of `get_sources`: the list comprehension
calls `is_available` once per source, so it both updates every source
(cooldown resets) and keeps the available ones.  Returns
(all sources updated, available sources in registration order). -/
def checkSources (l : List DataSource) (now : ℚ) : List DataSource × List DataSource :=
  (l.map (fun s => (s.isAvailable now).2),
   l.filterMap (fun s =>
     let r := s.isAvailable now
     if r.1 then some r.2 else Option.none))

/-- Descending-priority order used by `sources.sort(key=lambda x: x.priority,
reverse=True)`. -/
def priorityDesc (a b : DataSource) : Prop := b.priority ≤ a.priority

instance : DecidableRel priorityDesc := fun a b => Int.decLe b.priority a.priority

/-- src/data_layer.py lines 147–153, `DataSourceRegistry.get_sources`:
filter the registered sources by availability, sort by descending
priority.  (Python's sort is stable; the claims checked here do not
distinguish equal-priority orderings.) -/
def registryGetSources (reg : Registry) (dt : String) (now : ℚ) : List DataSource :=
  List.insertionSort priorityDesc (checkSources (registeredSources reg dt) now).2


/-! ## Fetch pipeline (src/data_layer.py, DataFetcher.fetch_with_fallback)

The pipeline state for one data_type: the registered sources for that
data_type and the persistent cache.  `fetcher_func` is modelled as a
function from source name to `Except String ℚ` (`.error` = the Python call
raised), the optional validator as `ℚ → Except String Bool` (`.error` = the
validator itself raised).  The overall result is
`Except String (Option ℚ)`: `.error` models an exception escaping
`fetch_with_fallback`, `.ok Option.none` the explicit "no data" return. -/

structure FetchState where
  sources : List DataSource
  cache : CacheDB
  deriving DecidableEq

/-- Update the (uniquely named) source `nm` in the registry list; models a
`record_success` / `record_failure` call on the shared source object. -/
def updateSource (l : List DataSource) (nm : String) (f : DataSource → DataSource) :
    List DataSource :=
  l.map (fun s => if s.name == nm then f s else s)

/-- The `for source in sources:` loop of `fetch_with_fallback`
(src/data_layer.py lines 204–219) over the names of the sorted available
sources, threading the post-availability-check registry and the cache.
One `try:` block covers the adapter call, the validator call on the fetched
value, the success bookkeeping and the cache write, so an exception from
either the adapter or the validator is caught and recorded as a source
failure; a validator verdict of False touches neither the source nor the
cache.  Falling off the end returns the explicit "no data" `None`. -/
def fetchLoop (reg : List DataSource) (names : List String) (cache : CacheDB)
    (key : String) (now ttl : ℚ) (fetcher : String → Except String ℚ)
    (validator : Option (ℚ → Except String Bool)) (useCache : Bool) :
    Except String (Option ℚ) × List DataSource × CacheDB :=
  match names with
  | [] => (Except.ok Option.none, reg, cache)
  | nm :: rest =>
    match fetcher nm with
    | Except.error _ =>
        fetchLoop (updateSource reg nm (fun s => s.recordFailure now)) rest cache
          key now ttl fetcher validator useCache
    | Except.ok data =>
      match validator with
      | Option.none =>
          (Except.ok (some data), updateSource reg nm DataSource.recordSuccess,
           if useCache then PersistentCache.set cache key data ttl now else cache)
      | some f =>
        match f data with
        | Except.error _ =>
            fetchLoop (updateSource reg nm (fun s => s.recordFailure now)) rest cache
              key now ttl fetcher validator useCache
        | Except.ok true =>
            (Except.ok (some data), updateSource reg nm DataSource.recordSuccess,
             if useCache then PersistentCache.set cache key data ttl now else cache)
        | Except.ok false =>
            fetchLoop reg rest cache key now ttl fetcher validator useCache

/-- src/data_layer.py lines 184–224, `DataFetcher.fetch_with_fallback` for
one data_type, with `key` the precomputed cache key and `ttl` the effective
cache TTL.  The fresh-cache validator call (line 198) sits outside any
`try:` block, so a validator exception there escapes; everything in the
source loop is guarded.  On total failure the function logs and returns
`None` — it never consults the cache again for a stale value. -/
def fetchWithFallback (st : FetchState) (key : String) (now : ℚ)
    (fetcher : String → Except String ℚ) (validator : Option (ℚ → Except String Bool))
    (useCache : Bool) (ttl : ℚ) : Except String (Option ℚ) × FetchState :=
  let proceed : Except String (Option ℚ) × FetchState :=
    let checked := checkSources st.sources now
    let order := (List.insertionSort priorityDesc checked.2).map (fun s => s.name)
    let r := fetchLoop checked.1 order st.cache key now ttl fetcher validator useCache
    (r.1, ⟨r.2.1, r.2.2⟩)
  if useCache then
    match PersistentCache.get st.cache key now with
    | some cached =>
      match validator with
      | Option.none => (Except.ok (some cached), st)
      | some f =>
        match f cached with
        | Except.error e => (Except.error e, st)
        | Except.ok true => (Except.ok (some cached), st)
        | Except.ok false => proceed
    | Option.none => proceed
  else proceed


/-! ## Sector fund-flow service (src/backend/services/sector_flow_service.py)

`sector_fund_flow_core` with its module-level `_SECTOR_CACHE`.  The cache
entry for one key: items (modelled abstractly as ℤ records — their
construction from vendor tables is the parsing layer verified above) plus
the fetch timestamp; `_seconds_since` of the stored `fetched_at` string is
`now - fetchedAt` (the string round-trips through strftime/strptime).
Provider outcomes are inputs: `tsRes`/`thsRes` model the result dicts of
`_fetch_sector_fund_flow_tushare`/`_ths` (which catch their own
exceptions), `akRes` the AkShare fetch+parse attempt of lines 646–663
(`.error` = all three retries raised).  Truncation to `top_n` inside the
provider helpers is part of those inputs. -/

inductive ProvRes where
  | ok (items : List ℤ) (dbg : List String)
  | err (msg : String)
  deriving DecidableEq

structure SectorCacheEntry where
  fetchedAt : ℚ
  items : List ℤ
  dbg : List String
  deriving DecidableEq

structure SectorEnv where
  tsInstalled : Bool
  tsRes : ProvRes
  thsRes : ProvRes
  akRes : Except String (List ℤ)
  cacheTtl : ℚ
  now : ℚ

/-- The fields of the response dict that the claims are about.  Validation
errors (lines 536–541) return dicts without a `stale` key; they are
modelled with `stale = false` and an empty provider. -/
structure SectorResult where
  ok : Bool
  stale : Bool
  items : List ℤ
  provider : String
  deriving DecidableEq

/-- Allowed indicators (line 19). -/
def allowedIndicator : List String := ["今日", "5日", "10日"]

/-- Allowed sector types (line 20). -/
def allowedSectorType : List String := ["行业资金流", "概念资金流", "地域资金流"]

/-- Lines 513–523, `_normalize_provider` (after the `.strip().lower()`
preprocessing, which the input is assumed to have undergone). -/
def normalizeProvider (p : String) : String :=
  if p = "ak" ∨ p = "akshare" ∨ p = "ak_share" then "akshare"
  else if p = "ts" ∨ p = "tushare" ∨ p = "tu" then "tushare"
  else if p = "ths" ∨ p = "tonghuashun" ∨ p = "10jqka" then "ths"
  else if p = "auto" ∨ p = "" then "auto"
  else p

/-- Lines 691–706 / 615–630: the stale-fallback branch taken when a live
fetch failed.  A cached entry with a nonempty items list is served with
`stale = true` and provider "cache"; otherwise the "no data" dict
(`ok = false`) is returned, naming the failed provider. -/
def sectorStaleFallback (cached : Option SectorCacheEntry) (topN : ℤ) (failProv : String) :
    SectorResult × Option SectorCacheEntry :=
  match cached with
  | some c =>
      if c.items.isEmpty then (⟨false, true, [], failProv⟩, some c)
      else (⟨true, true, c.items.take topN.toNat, "cache"⟩, some c)
  | Option.none => (⟨false, true, [], failProv⟩, Option.none)

/-- Lines 594–720 after the cache-freshness check: THS-only mode, or the
AkShare branch with its THS fallback (for providers auto/akshare) and the
stale fallback. -/
def sectorProviders (env : SectorEnv) (topN : ℤ) (p : String)
    (cached : Option SectorCacheEntry) : SectorResult × Option SectorCacheEntry :=
  if p = "ths" then
    match env.thsRes with
    | ProvRes.ok items dbg => (⟨true, false, items, "ths"⟩, some ⟨env.now, items, dbg⟩)
    | ProvRes.err _ => sectorStaleFallback cached topN ("ths")
  else
    match env.akRes with
    | Except.ok items => (⟨true, false, items, "akshare"⟩, some ⟨env.now, items, []⟩)
    | Except.error _ =>
      if p = "auto" ∨ p = "akshare" then
        match env.thsRes with
        | ProvRes.ok items dbg => (⟨true, false, items, "ths"⟩, some ⟨env.now, items, dbg⟩)
        | ProvRes.err _ => sectorStaleFallback cached topN ("akshare")
      else sectorStaleFallback cached topN ("akshare")

/-- Lines 569–591: the TuShare-preferred step (taken when the provider is
tushare or auto and the tushare package is importable), falling through to
the remaining providers on failure. -/
def sectorAfterCache (env : SectorEnv) (topN : ℤ) (p : String)
    (cached : Option SectorCacheEntry) : SectorResult × Option SectorCacheEntry :=
  if (p = "tushare" ∨ p = "auto") ∧ env.tsInstalled = true then
    match env.tsRes with
    | ProvRes.ok items dbg => (⟨true, false, items, "tushare"⟩, some ⟨env.now, items, dbg⟩)
    | ProvRes.err _ => sectorProviders env topN p cached
  else sectorProviders env topN p cached

/-- src/backend/services/sector_flow_service.py lines 530–788,
`sector_fund_flow_core` for one cache key: parameter validation, the
fresh-cache path (age within TTL), then the provider chain; the returned
pair is (response, cache entry for the key after the call). -/
def sectorFundFlowCore (env : SectorEnv) (indicator sectorType : String) (topN : ℤ)
    (provider : String) (cached : Option SectorCacheEntry) :
    SectorResult × Option SectorCacheEntry :=
  if indicator ∉ allowedIndicator then (⟨false, false, [], ""⟩, cached)
  else if sectorType ∉ allowedSectorType then (⟨false, false, [], ""⟩, cached)
  else if topN ≤ 0 ∨ 200 < topN then (⟨false, false, [], ""⟩, cached)
  else
    let p := normalizeProvider provider
    match cached with
    | some c =>
        if env.now - c.fetchedAt ≤ env.cacheTtl then
          (⟨true, false, c.items.take topN.toNat, "cache"⟩, some c)
        else sectorAfterCache env topN p (some c)
    | Option.none => sectorAfterCache env topN p Option.none


/-! ## Fund quote settlement (src/backend/portfolio_service.py)

Calendar dates are modelled as day numbers d : ℤ with the epoch chosen on a
Monday, so Python's `date.weekday()` is `d % 7` (0 = Monday … 6 = Sunday)
and `timedelta(days=1)` is `d - 1`.  A parsed `jzrq` settlement date is
`Option ℤ` (`none` = absent/unparsable, `_parse_local_date` returned None).
NAV and percentage floats are ℚ. -/

/-- The `while cur.weekday() >= 5: cur -= 1` loop (lines 150–152 and
159–161).  Weekend days (weekday 5, 6) are consecutive, so the loop runs at
most twice; it is unrolled accordingly: from Sunday it steps back two days,
from Saturday one day, otherwise it does not move. -/
def skipWeekendBack (d : ℤ) : ℤ :=
  if 5 ≤ d % 7 then (if 5 ≤ (d - 1) % 7 then d - 2 else d - 1) else d

/-- Lines 149–153, `_prev_trade_day`: start from yesterday and skip any
weekend days backwards. -/
def prevTradeDay (d : ℤ) : ℤ := skipWeekendBack (d - 1)

/-- Lines 155–167, `_latest_expected_settled_date`, from the current
wall-clock (calendar day and hour): on a weekend, the most recent weekday;
on a trading day from 20:00, today; earlier in the day, the previous
trading day. -/
def latestExpectedSettledDate (today : ℤ) (hour : ℕ) : ℤ :=
  if 5 ≤ today % 7 then skipWeekendBack today
  else if 20 ≤ hour then today
  else prevTradeDay today

/-- Lines 144–170, `_is_nav_settled`: false when the vendor's `jzrq` does
not parse; otherwise compare it with the expected latest settled date. -/
def isNavSettled (jzrq : Option ℤ) (today : ℤ) (hour : ℕ) : Bool :=
  match jzrq with
  | Option.none => false
  | some d => decide (latestExpectedSettledDate today hour ≤ d)

/-- The fields of the parsed fundgz JSONP object used by `fetch_fund_gz`
(lines 486–489), already passed through `_safe_float` / `_parse_local_date`:
`gsz` intraday estimate, `dwjz` previous settled NAV, `gszzl` estimated
change percent, `jzrq` settlement date. -/
structure GzObj where
  name : String
  gsz : Option ℚ
  dwjz : Option ℚ
  gszzl : Option ℚ
  jzrq : Option ℤ

/-- The akshare open-fund daily table row for the fund (lines 197–201),
fields already through `_safe_float`. -/
structure DailyRec where
  nav : Option ℚ
  prev_nav : Option ℚ
  pct : Option ℚ
  jzrq : Option ℤ

/-- A non-empty settled-NAV snapshot dict. -/
structure SnapRec where
  nav : ℚ
  prev_nav : Option ℚ
  pct : Option ℚ
  jzrq : Option ℤ

/-- Lines 196–221 of `_fetch_settled_nav_snapshot`: the daily-snapshot
branch.  When the daily NAV is present, a missing previous close is
recovered from a usable change percent, a missing change percent is
recomputed from the previous close, and the snapshot's own settlement date
(falling back to the requested `target`) is attached.  When the daily NAV
is absent this branch yields nothing (the history-series fallback of lines
226–287, and the snapshot cache, are outside the claim and not modelled). -/
def settledSnapshotFromDaily (d : DailyRec) (target : Option ℤ) : Option SnapRec :=
  match d.nav with
  | Option.none => Option.none
  | some n =>
      let prev1 : Option ℚ :=
        match d.prev_nav with
        | some pv => some pv
        | Option.none =>
          match d.pct with
          | some p => if -100 < p then some (n / (1 + p / 100)) else Option.none
          | Option.none => Option.none
      let pct1 : Option ℚ :=
        match d.pct with
        | some p => some p
        | Option.none =>
          match prev1 with
          | some pv => if pv ≠ 0 then some ((n - pv) / pv * 100) else Option.none
          | Option.none => Option.none
      some ⟨n, prev1, pct1, match d.jzrq with | some j => some j | Option.none => target⟩

/-- The normalized quote record built by `fetch_fund_gz` (lines 494–526). -/
structure OutRec where
  ok : Bool
  code : String
  name : String
  nav : Option ℚ
  prev_nav : Option ℚ
  daily_change_pct : Option ℚ
  jzrq : Option ℤ
  source : String

/-- src/backend/portfolio_service.py lines 486–526: the normalization stage
of `fetch_fund_gz` after the JSONP parse.  The estimate record uses `gsz`
(falling back to `dwjz`) as nav, `dwjz` as previous close and `gszzl` as
the change percent, with source "fundgz".  When `_is_nav_settled` holds and
the settled snapshot is non-empty, its non-None fields supersede the
estimate and the source becomes "settled_nav"; otherwise the estimate is
returned unchanged. -/
def fetchFundGzNormalize (code : String) (obj : GzObj) (today : ℤ) (hour : ℕ)
    (daily : DailyRec) : OutRec :=
  let nav0 : Option ℚ := match obj.gsz with | some g => some g | Option.none => obj.dwjz
  let est : OutRec := ⟨true, code, obj.name, nav0, obj.dwjz, obj.gszzl, obj.jzrq, "fundgz"⟩
  if isNavSettled obj.jzrq today hour then
    match settledSnapshotFromDaily daily obj.jzrq with
    | Option.none => est
    | some snap =>
        { est with
          nav := some snap.nav,
          prev_nav := match snap.prev_nav with | some p => some p | Option.none => est.prev_nav,
          daily_change_pct :=
            match snap.pct with | some p => some p | Option.none => est.daily_change_pct,
          jzrq := match snap.jzrq with | some j => some j | Option.none => est.jzrq,
          source := "settled_nav" }
  else est


/-! ## Claim C1 (counterexample part): no stale fallback in fetch_with_fallback -/

/-- C1, counterexample.  The claim states that whenever every source fails
and the cache holds a prior successfully fetched value for the key — even
one whose TTL has expired — the pipeline returns that value flagged stale,
and "no data" only occurs with no prior value at all.  In
`fetch_with_fallback` an expired entry is invisible (`get` misses) and the
total-failure path returns `None` directly: here the key "k" holds the
prior value 7 (expired at 10 < now = 20), the only source's adapter raises,
and the pipeline still answers "no data". -/
theorem fetchWithFallback_noData_despite_expired_cache :
    (fetchWithFallback (FetchState.mk [DataSource.mk ("a") 100 0 0]
        [(("k"), CacheEntry.mk 7 0 10)]) ("k") 20
        (fun _ => Except.error ("boom")) Option.none true 60).1 = Except.ok Option.none ∧
    cacheFind [(("k"), CacheEntry.mk 7 0 10)] ("k") = some (CacheEntry.mk 7 0 10) ∧
    (10 : ℚ) < 20 := by
  refine ⟨?_, by simp [cacheFind, List.find?], by norm_num⟩
  norm_num [fetchWithFallback, PersistentCache.get, cacheFind, List.find?, checkSources,
    DataSource.isAvailable, List.insertionSort, List.orderedInsert, fetchLoop, updateSource,
    DataSource.recordFailure]


/-! ## Claim C1 (amended part): stale fallback in sector_fund_flow_core -/

/-- C1, amended: the stale-fallback behaviour the claim describes holds for
`sector_fund_flow_core` (whose module-level cache never expires for
fallback purposes), not for `DataFetcher.fetch_with_fallback` (which
returns "no data" on total failure even when an expired prior value is
still stored — see the counterexample).  In the sector service, with valid
parameters and every provider failing (TuShare, THS and AkShare), a
previously cached result with nonempty items — even one long past the
freshness TTL — is returned with `ok = true`, `stale = true`, its items
truncated to top_n, provider "cache"; and with no cached entry at all the
result is the explicit no-data dict (`ok = false`). -/
theorem sectorCore_stale_fallback_amended (env : SectorEnv) (indicator sectorType : String)
    (topN : ℤ) (c : SectorCacheEntry) (e1 e2 e3 : String)
    (hts : env.tsRes = ProvRes.err e1) (hths : env.thsRes = ProvRes.err e2)
    (hak : env.akRes = Except.error e3)
    (hstale : env.cacheTtl < env.now - c.fetchedAt) (hitems : ¬ c.items.isEmpty)
    (hind : indicator ∈ allowedIndicator) (hst : sectorType ∈ allowedSectorType)
    (htop : 0 < topN ∧ topN ≤ 200) :
    (sectorFundFlowCore env indicator sectorType topN ("auto") (some c)).1
      = ⟨true, true, c.items.take topN.toNat, "cache"⟩ ∧
    (sectorFundFlowCore env indicator sectorType topN ("auto") Option.none).1.ok = false := by
  have hp : normalizeProvider ("auto") = "auto" := by rfl
  have htop1 : ¬ (topN ≤ 0 ∨ 200 < topN) := by omega
  have hfresh : ¬ (env.now - c.fetchedAt ≤ env.cacheTtl) := not_le.mpr hstale
  have hafter : ∀ cc, sectorAfterCache env topN ("auto") cc
      = sectorStaleFallback cc topN ("akshare") := by
    intro cc
    have hprov : sectorProviders env topN ("auto") cc
        = sectorStaleFallback cc topN ("akshare") := by
      simp [sectorProviders, hak, hths]
    by_cases hi : env.tsInstalled = true
    · simp [sectorAfterCache, hi, hts, hprov]
    · simp [sectorAfterCache, hi, hprov]
  constructor
  · simp [sectorFundFlowCore, hind, hst, htop1, hfresh, hp, hafter, sectorStaleFallback, hitems]
  · simp [sectorFundFlowCore, hind, hst, htop1, hp, hafter, sectorStaleFallback]

/-- C1, witness: the amended theorem at a concrete environment (every
provider failing, a stale cached entry holding one item fetched at time 0
with TTL 120 and now = 1000). -/
theorem sectorCore_stale_fallback_amended_witness :
    (sectorFundFlowCore (SectorEnv.mk true (ProvRes.err ("x")) (ProvRes.err ("y"))
        (Except.error ("z")) 120 1000) ("今日") ("行业资金流") 30 ("auto")
        (some (SectorCacheEntry.mk 0 [5] []))).1
      = ⟨true, true, [5], "cache"⟩ ∧
    (sectorFundFlowCore (SectorEnv.mk true (ProvRes.err ("x")) (ProvRes.err ("y"))
        (Except.error ("z")) 120 1000) ("今日") ("行业资金流") 30 ("auto")
        Option.none).1.ok = false := by
  have h := sectorCore_stale_fallback_amended
    (SectorEnv.mk true (ProvRes.err ("x")) (ProvRes.err ("y")) (Except.error ("z")) 120 1000)
    ("今日") ("行业资金流") 30 (SectorCacheEntry.mk 0 [5] []) ("x") ("y") ("z")
    rfl rfl rfl (by norm_num) (by decide) (by decide) (by decide) (by omega)
  exact ⟨by rw [h.1]; rfl, h.2⟩


/-! ## Claim C2: TTL boundary of get/set -/

/-- C2, counterexample.  The claim states that after `set(k, v, t)` at time
T0, `get` still returns `v` at the boundary read time T = T0 + t.  In the
code the SQL predicate is the strict `expires_at > now`, so the boundary
read already misses, even though the row is still present. -/
theorem cache_get_at_exact_expiry_misses :
    PersistentCache.get (PersistentCache.set [] ("k") 1 10 0) ("k") 10 = Option.none ∧
    cacheFind (PersistentCache.set [] ("k") 1 10 0) ("k") = some ⟨1, 0, 10⟩ := by
  constructor
  · simp [PersistentCache.get, PersistentCache.set, cacheFind, List.find?]
  · simp [PersistentCache.set, cacheFind, List.find?]

/-- C2, amended: after `set(k, v, t)` at time T0, `get` returns `v` exactly
for reads at T < T0 + t (in particular throughout [T0, T0 + t)), and returns
NotFound for every T ≥ T0 + t — including the boundary T = T0 + t — even
though the underlying row `(v, T0, T0 + t)` still exists. -/
theorem cache_get_set_halfopen_amended (db : CacheDB) (k : String) (v ttl T0 T : ℚ) :
    (T < T0 + ttl → PersistentCache.get (PersistentCache.set db k v ttl T0) k T = some v) ∧
    (T0 + ttl ≤ T → PersistentCache.get (PersistentCache.set db k v ttl T0) k T = Option.none) ∧
    cacheFind (PersistentCache.set db k v ttl T0) k = some ⟨v, T0, T0 + ttl⟩ := by
  have hrow : cacheFind (PersistentCache.set db k v ttl T0) k = some ⟨v, T0, T0 + ttl⟩ := by
    simp [PersistentCache.set, cacheFind, List.find?]
  refine ⟨?_, ?_, hrow⟩
  · intro h
    simp [PersistentCache.get, hrow, h]
  · intro h
    simp [PersistentCache.get, hrow, not_lt.mpr h]

/-- C2, witness: the amended theorem applied at k = "k", v = 1, ttl = 10,
T0 = 0, with a fresh read at T = 3 and an expired read at T = 10. -/
theorem cache_get_set_halfopen_amended_witness :
    PersistentCache.get (PersistentCache.set [] ("k") 1 10 0) ("k") 3 = some 1 ∧
    PersistentCache.get (PersistentCache.set [] ("k") 1 10 0) ("k") 12 = Option.none := by
  exact ⟨(cache_get_set_halfopen_amended [] ("k") 1 10 0 3).1 (by norm_num),
    (cache_get_set_halfopen_amended [] ("k") 1 10 0 12).2.1 (by norm_num)⟩


/-! ## Claim C3: percentage sentinels -/

/-- C3, counterexample.  The claim states that percentage normalization maps
each missing sentinel ("--", "-", "", "nan", "None") to null (a missing
value), never 0.0.  In the code `_parse_percent` always returns a float and
maps every one of these sentinels to exactly 0.0. -/
theorem parsePercent_sentinel_zero_counterexample :
    parsePercent (PyVal.str ("--".data)) = 0 ∧
    parsePercent (PyVal.str ("-".data)) = 0 ∧
    parsePercent (PyVal.str ("".data)) = 0 ∧
    parsePercent (PyVal.str ("nan".data)) = 0 ∧
    parsePercent (PyVal.str ("None".data)) = 0 := by
  refine ⟨by decide, by decide, by decide, by decide, by decide⟩

/-- C3, amended: `_parse_percent` yields 0.0 (not null) for each missing
sentinel; missing-ness is tracked separately by `_is_missing`, which
classifies all of these sentinels as missing. -/
theorem parsePercent_sentinels_amended :
    (parsePercent (PyVal.str ("--".data)) = 0 ∧ isMissing (PyVal.str ("--".data)) = true) ∧
    (parsePercent (PyVal.str ("-".data)) = 0 ∧ isMissing (PyVal.str ("-".data)) = true) ∧
    (parsePercent (PyVal.str ("".data)) = 0 ∧ isMissing (PyVal.str ("".data)) = true) ∧
    (parsePercent (PyVal.str ("nan".data)) = 0 ∧ isMissing (PyVal.str ("nan".data)) = true) ∧
    (parsePercent (PyVal.str ("None".data)) = 0 ∧ isMissing (PyVal.str ("None".data)) = true) := by
  refine ⟨⟨by decide, by decide⟩, ⟨by decide, by decide⟩, ⟨by decide, by decide⟩,
    ⟨by decide, by decide⟩, ⟨by decide, by decide⟩⟩


/-! ## Claim C4: threshold and cooldown -/

/-- C4: starting from `fail_count = 0`, after exactly three consecutive
`record_failure` calls (and none before the third is needed: after only two
the source is still available), `is_available` answers false while
`now - last_fail_at ≤ 300` and answers true exactly once
`now - last_fail_at > 300`. -/
theorem circuitBreaker_threshold_cooldown (s0 : DataSource) (h0 : s0.fail_count = 0)
    (t1 t2 t3 now : ℚ) :
    ((((s0.recordFailure t1).recordFailure t2).recordFailure t3).isAvailable now).1 = true
      ↔ now - t3 > 300 := by
  simp only [DataSource.recordFailure, DataSource.isAvailable, h0]
  norm_num
  split_ifs with h <;> simp [h]

/-- C4, witness: a source that has just failed three times (all at time 0)
is unavailable at time 300 and available again at time 301. -/
theorem circuitBreaker_threshold_cooldown_witness :
    (((((DataSource.mk ("a") 100 0 0).recordFailure 0).recordFailure 0).recordFailure 0).isAvailable 300).1 = false ∧
    (((((DataSource.mk ("a") 100 0 0).recordFailure 0).recordFailure 0).recordFailure 0).isAvailable 301).1 = true := by
  constructor
  · have h := circuitBreaker_threshold_cooldown (DataSource.mk ("a") 100 0 0) rfl 0 0 0 300
    rw [Bool.eq_false_iff]
    intro hc
    exact absurd (h.mp hc) (by norm_num)
  · exact (circuitBreaker_threshold_cooldown (DataSource.mk ("a") 100 0 0) rfl 0 0 0 301).mpr (by norm_num)


/-! ## Claim C5: half-open behaviour after the cooldown -/

/-- C5, counterexample.  The claim states that once the cooldown of an OPEN
breaker has elapsed, the very next `record_failure` re-opens it (makes
`is_available` false) without requiring threshold new failures.  In the code
the cooldown check inside `is_available` resets `fail_count` to 0, so after
one further failure the count is 1 < 3 and the source is still available. -/
theorem halfOpen_single_failure_keeps_available :
    (301 : ℚ) - 0 > 300 ∧
    ((((((((DataSource.mk ("a") 100 0 0).recordFailure 0).recordFailure 0).recordFailure 0).isAvailable 301).2).recordFailure 301).isAvailable 301).1 = true := by
  constructor
  · norm_num
  · norm_num [DataSource.recordFailure, DataSource.isAvailable]

/-- C5, amended: when the cooldown of an OPEN breaker (fail_count ≥ 3) has
elapsed, `is_available` returns true and resets `fail_count` to 0, so the
source is treated as fully CLOSED again: a single subsequent
`record_failure` leaves it available (at any query time), and three new
consecutive failures are required to re-open it. -/
theorem halfOpen_reset_amended (s : DataSource) (now t now2 : ℚ)
    (h1 : 3 ≤ s.fail_count) (h2 : now - s.last_fail_time > 300) :
    (s.isAvailable now).1 = true ∧
    (s.isAvailable now).2.fail_count = 0 ∧
    ((((s.isAvailable now).2).recordFailure t).isAvailable now2).1 = true := by
  have hnot : ¬ s.fail_count < 3 := by omega
  refine ⟨?_, ?_, ?_⟩ <;>
    simp [DataSource.isAvailable, DataSource.recordFailure, hnot, h2]

/-- C5, witness: the amended theorem applied to a source with three failures
recorded at time 0, probed at time 301. -/
theorem halfOpen_reset_amended_witness :
    ((DataSource.mk ("a") 100 3 0).isAvailable 301).1 = true ∧
    ((DataSource.mk ("a") 100 3 0).isAvailable 301).2.fail_count = 0 ∧
    (((((DataSource.mk ("a") 100 3 0).isAvailable 301).2).recordFailure 301).isAvailable 302).1 = true := by
  exact halfOpen_reset_amended (DataSource.mk ("a") 100 3 0) 301 301 302 (by norm_num) (by norm_num)


/-! ## Claim C6: amount unit normalization -/

/-- Evaluation helper: the 亿-suffix branch of `_parse_cn_amount_to_yi`. -/
theorem parseCnAmount_yi_suffix_eval (s t : List Char) (d : DecimalParts)
    (h1 : removeCommas (trimChars s) = t)
    (h2 : t ∉ amountSentinels)
    (h3 : parseDecimal t = Option.none)
    (h4 : t.getLast? = some '亿')
    (h5 : parseDecimal t.dropLast = some d) :
    parseCnAmountToYi (PyVal.str s) = ratOfDecimal d := by
  simp [parseCnAmountToYi, pyFloat, h1, h2, h3, h4, h5]

/-- Evaluation helper: the 万-suffix branch of `_parse_cn_amount_to_yi`. -/
theorem parseCnAmount_wan_suffix_eval (s t : List Char) (d : DecimalParts)
    (h1 : removeCommas (trimChars s) = t)
    (h2 : t ∉ amountSentinels)
    (h3 : parseDecimal t = Option.none)
    (h4 : t.getLast? = some '万')
    (h5 : parseDecimal t.dropLast = some d) :
    parseCnAmountToYi (PyVal.str s) = ratOfDecimal d / 10000 := by
  have h6 : t.getLast? ≠ some '亿' := by rw [h4]; decide
  simp [parseCnAmountToYi, pyFloat, h1, h2, h3, h4, h5, h6]

/-- C6: unit-normalization round trip, measured in base currency units
(yuan).  `_parse_cn_amount_to_yi` produces amounts in its output unit
亿元 = 10^8 yuan; in base units, "12.98亿" parses to 12.98 × 10^8,
"3500万" parses to 3500 × 10^4, and a bare number whose magnitude is
at least the 10^6 threshold is treated as already being in base units
and is left unscaled. -/
theorem cnAmount_unit_roundtrip :
    yuanOfYi (parseCnAmountToYi (PyVal.str ("12.98亿".data))) = (1298 / 100) * 10 ^ 8 ∧
    yuanOfYi (parseCnAmountToYi (PyVal.str ("3500万".data))) = 3500 * 10 ^ 4 ∧
    ∀ q : ℚ, (10 : ℚ) ^ 6 ≤ |q| → yuanOfYi (parseCnAmountToYi (PyVal.num q)) = q := by
  refine ⟨?_, ?_, ?_⟩
  · rw [parseCnAmount_yi_suffix_eval ("12.98亿".data) ("12.98亿".data) ⟨false, 12, 98, 2⟩
      (by decide) (by decide) (by decide) (by decide) (by decide)]
    norm_num [yuanOfYi, ratOfDecimal]
  · rw [parseCnAmount_wan_suffix_eval ("3500万".data) ("3500万".data) ⟨false, 3500, 0, 0⟩
      (by decide) (by decide) (by decide) (by decide) (by decide)]
    norm_num [yuanOfYi, ratOfDecimal]
  · intro q hq
    have : parseCnAmountToYi (PyVal.num q) = q / (10 : ℚ) ^ 8 := by
      simp [parseCnAmountToYi, hq]
    rw [this, yuanOfYi]
    field_simp

/-- C6, witness: the bare-number conjunct applied at 1298000000 (a value
in yuan above the 10^6 threshold), left unscaled in base units. -/
theorem cnAmount_unit_roundtrip_witness :
    (10 : ℚ) ^ 6 ≤ |(1298000000 : ℚ)| ∧
    yuanOfYi (parseCnAmountToYi (PyVal.num 1298000000)) = 1298000000 := by
  have h : (10 : ℚ) ^ 6 ≤ |(1298000000 : ℚ)| := by norm_num
  exact ⟨h, cnAmount_unit_roundtrip.2.2 1298000000 h⟩


/-! ## Claim C7: exception propagation across the pipeline boundary -/

/-- C7, counterexample.  The claim states that a pipeline fetch never
propagates an exception, including when the validator raises on a cached
value.  The fresh-cache validator call (src/data_layer.py line 198) is
outside every `try:` block: with a fresh cached value present and a raising
validator, the exception escapes `fetch_with_fallback`. -/
theorem fetchWithFallback_validator_raise_on_cached_propagates :
    (fetchWithFallback (FetchState.mk [] [(("k"), CacheEntry.mk 7 0 100)]) ("k") 5
      (fun _ => Except.error ("nofetch")) (some (fun _ => Except.error ("valfail"))) true 60).1
      = Except.error ("valfail") := by
  norm_num [fetchWithFallback, PersistentCache.get, cacheFind, List.find?]

/-- The source loop of the pipeline never lets an exception escape: adapter
and validator exceptions are caught and recorded as source failures. -/
theorem fetchLoop_isOk (names : List String) :
    ∀ (reg : List DataSource) (cache : CacheDB) (key : String) (now ttl : ℚ)
      (fetcher : String → Except String ℚ) (validator : Option (ℚ → Except String Bool))
      (useCache : Bool),
      ∃ r, (fetchLoop reg names cache key now ttl fetcher validator useCache).1 = Except.ok r := by
  induction names with
  | nil => intros; exact ⟨Option.none, rfl⟩
  | cons nm rest ih =>
    intro reg cache key now ttl fetcher validator useCache
    rcases hf : fetcher nm with e | data
    · simpa only [fetchLoop, hf] using ih _ _ _ _ _ _ _ _
    · cases validator with
      | none => exact ⟨some data, by simp [fetchLoop, hf]⟩
      | some f =>
        rcases hv : f data with e | b
        · simpa only [fetchLoop, hf, hv] using ih _ _ _ _ _ _ _ _
        · cases b
          · simpa only [fetchLoop, hf, hv] using ih _ _ _ _ _ _ _ _
          · exact ⟨some data, by simp [fetchLoop, hf, hv]⟩

/-- C7, amended: no exception crosses the `fetch_with_fallback` boundary
except a validator exception raised on a *fresh cached* value (that one
call is outside every `try:` block); adapter exceptions and validator
exceptions on freshly fetched values are caught and converted into source
failures, and total failure is the explicit "no data" result.  Formally:
whenever the validator does not raise on the cached value (if any), the
result is a normal return. -/
theorem fetchWithFallback_no_raise_amended (st : FetchState) (key : String) (now : ℚ)
    (fetcher : String → Except String ℚ) (validator : Option (ℚ → Except String Bool))
    (useCache : Bool) (ttl : ℚ)
    (hcv : ∀ c, PersistentCache.get st.cache key now = some c →
           ∀ f, validator = some f → ∃ b, f c = Except.ok b) :
    ∃ r, (fetchWithFallback st key now fetcher validator useCache ttl).1 = Except.ok r := by
  obtain ⟨r, hr⟩ := fetchLoop_isOk
    ((List.insertionSort priorityDesc (checkSources st.sources now).2).map (fun s => s.name))
    (checkSources st.sources now).1 st.cache key now ttl fetcher validator useCache
  by_cases hu : useCache = true
  · rw [hu] at hr
    cases hg : PersistentCache.get st.cache key now with
    | none => exact ⟨r, by simp [fetchWithFallback, hu, hg, hr]⟩
    | some c =>
      cases validator with
      | none => exact ⟨some c, by simp [fetchWithFallback, hu, hg]⟩
      | some f =>
        obtain ⟨b, hb⟩ := hcv c hg f rfl
        cases b
        · exact ⟨r, by simp [fetchWithFallback, hu, hg, hb, hr]⟩
        · exact ⟨some c, by simp [fetchWithFallback, hu, hg, hb]⟩
  · rw [Bool.not_eq_true] at hu
    rw [hu] at hr
    exact ⟨r, by simp [fetchWithFallback, hu, hr]⟩

/-- C7, witness: the amended theorem applied to a concrete pipeline whose
cache holds a fresh value 7 and whose validator is total. -/
theorem fetchWithFallback_no_raise_amended_witness :
    ∃ r, (fetchWithFallback (FetchState.mk [] [(("k"), CacheEntry.mk 7 0 100)]) ("k") 5
      (fun _ => Except.error ("nofetch")) (some (fun v => Except.ok (decide (0 < v)))) true 60).1
      = Except.ok r := by
  apply fetchWithFallback_no_raise_amended
  intro c _ f hf
  cases hf
  exact ⟨_, rfl⟩


/-! ## Claim C8: available sources, sorted by descending priority -/

/-- C8: for every registry state, data_type and time, `get_sources` returns
exactly the currently available registered sources (each as updated by its
availability check, which preserves name and priority), sorted by
descending priority; unavailable sources are filtered out. -/
theorem registryGetSources_available_sorted (reg : Registry) (dt : String) (now : ℚ) :
    (∀ s : DataSource, s ∈ registryGetSources reg dt now ↔
       ∃ s0 ∈ registeredSources reg dt,
         (s0.isAvailable now).1 = true ∧ s = (s0.isAvailable now).2) ∧
    List.Sorted priorityDesc (registryGetSources reg dt now) ∧
    (∀ s0 : DataSource,
       (s0.isAvailable now).2.name = s0.name ∧ (s0.isAvailable now).2.priority = s0.priority) := by
  refine ⟨?_, ?_, ?_⟩
  · intro s
    rw [registryGetSources, List.mem_insertionSort, checkSources]
    simp only [List.mem_filterMap]
    constructor
    · rintro ⟨s0, hmem, hf⟩
      refine ⟨s0, hmem, ?_⟩
      by_cases h : (s0.isAvailable now).1 = true
      · simp [h] at hf
        exact ⟨h, hf.symm⟩
      · simp [h] at hf
    · rintro ⟨s0, hmem, h1, h2⟩
      exact ⟨s0, hmem, by simp [h1, h2]⟩
  · haveI : IsTotal DataSource priorityDesc :=
      ⟨fun a b => le_total b.priority a.priority⟩
    haveI : IsTrans DataSource priorityDesc :=
      ⟨fun _ _ _ h1 h2 => le_trans h2 h1⟩
    exact List.sorted_insertionSort priorityDesc _
  · intro s0
    rw [DataSource.isAvailable]
    split_ifs <;> simp


/-! ## Claim C9: settled NAV supersedes the intraday estimate -/

/-- C9: when the vendor's settlement date `jzrq` is at least the expected
latest trading day (computed from the wall clock with weekend skipping) and
the settled daily snapshot provides a NAV with its true previous close (and
no precomputed percent), the normalized record carries the settled NAV, the
true previous close, a change percent recomputed against that previous
close (not against the provisional one), and source "settled_nav"; and for
any quote whose settlement date is earlier than expected, the estimate
record is returned unchanged. -/
theorem fetchFundGz_settled_supersedes (code : String) (obj : GzObj) (today : ℤ)
    (hour : ℕ) (daily : DailyRec) (d : ℤ) (n p : ℚ)
    (hj : obj.jzrq = some d) (hd : latestExpectedSettledDate today hour ≤ d)
    (hnav : daily.nav = some n) (hprev : daily.prev_nav = some p) (hp0 : p ≠ 0)
    (hpct : daily.pct = Option.none) :
    ((fetchFundGzNormalize code obj today hour daily).nav = some n ∧
     (fetchFundGzNormalize code obj today hour daily).prev_nav = some p ∧
     (fetchFundGzNormalize code obj today hour daily).daily_change_pct
       = some ((n - p) / p * 100) ∧
     (fetchFundGzNormalize code obj today hour daily).source = "settled_nav") ∧
    (∀ (obj2 : GzObj) (d2 : ℤ), obj2.jzrq = some d2 →
       d2 < latestExpectedSettledDate today hour →
       fetchFundGzNormalize code obj2 today hour daily
         = ⟨true, code, obj2.name,
            (match obj2.gsz with | some g => some g | Option.none => obj2.dwjz),
            obj2.dwjz, obj2.gszzl, obj2.jzrq, "fundgz"⟩) := by
  constructor
  · have hsettled : isNavSettled obj.jzrq today hour = true := by
      simp [isNavSettled, hj, hd]
    have hsnap : settledSnapshotFromDaily daily obj.jzrq
        = some ⟨n, some p, some ((n - p) / p * 100), match daily.jzrq with
                  | some j => some j | Option.none => obj.jzrq⟩ := by
      simp [settledSnapshotFromDaily, hnav, hprev, hpct, hp0]
    refine ⟨?_, ?_, ?_, ?_⟩ <;>
      simp [fetchFundGzNormalize, hsettled, hsnap]
  · intro obj2 d2 hj2 hlt
    have hs2 : isNavSettled obj2.jzrq today hour = false := by
      simp [isNavSettled, hj2, not_le.mpr hlt]
    simp [fetchFundGzNormalize, hs2]

/-- C9, witness: the theorem at a concrete Friday evening (today = 4 with
the Monday epoch, hour 21, so the expected settled date is day 4): a quote
settled on day 4 with daily snapshot nav 1.25 and previous close 1.2 gets
the settled values and the recomputed percent; a quote dated day 3 keeps
its estimate unchanged. -/
theorem fetchFundGz_settled_supersedes_witness :
    ((fetchFundGzNormalize ("008888") (GzObj.mk ("f") (some (123/100)) (some (6/5))
        (some (5/2)) (some 4)) 4 21 (DailyRec.mk (some (5/4)) (some (6/5)) Option.none
        (some 4))).nav = some (5/4) ∧
     (fetchFundGzNormalize ("008888") (GzObj.mk ("f") (some (123/100)) (some (6/5))
        (some (5/2)) (some 4)) 4 21 (DailyRec.mk (some (5/4)) (some (6/5)) Option.none
        (some 4))).daily_change_pct = some ((5/4 - 6/5) / (6/5) * 100) ∧
     (fetchFundGzNormalize ("008888") (GzObj.mk ("f") (some (123/100)) (some (6/5))
        (some (5/2)) (some 4)) 4 21 (DailyRec.mk (some (5/4)) (some (6/5)) Option.none
        (some 4))).source = "settled_nav") ∧
    fetchFundGzNormalize ("008888") (GzObj.mk ("f") (some (123/100)) (some (6/5))
        (some (5/2)) (some 3)) 4 21 (DailyRec.mk (some (5/4)) (some (6/5)) Option.none
        (some 4))
      = ⟨true, "008888", "f", some (123/100), some (6/5), some (5/2), some 3, "fundgz"⟩ := by
  have h := fetchFundGz_settled_supersedes ("008888")
    (GzObj.mk ("f") (some (123/100)) (some (6/5)) (some (5/2)) (some 4)) 4 21
    (DailyRec.mk (some (5/4)) (some (6/5)) Option.none (some 4)) 4 (5/4) (6/5)
    rfl (by norm_num [latestExpectedSettledDate, skipWeekendBack, prevTradeDay])
    rfl rfl (by norm_num) rfl
  refine ⟨⟨h.1.1, h.1.2.2.1, h.1.2.2.2⟩, ?_⟩
  have h2 := h.2 (GzObj.mk ("f") (some (123/100)) (some (6/5)) (some (5/2)) (some 3)) 3
    rfl (by norm_num [latestExpectedSettledDate, skipWeekendBack, prevTradeDay])
  simpa using h2


/-! ## Claim C10: source health under validator rejection -/

/-- C10, counterexample.  The claim states that only an *adapter* exception
increments `fail_count`.  But the validator call on a freshly fetched value
sits inside the same `try:` block (src/data_layer.py lines 204–219): with
an adapter that returns 7 normally and a validator that raises, the
source's `fail_count` is incremented to 1 and its `last_fail_time` set. -/
theorem validator_exception_increments_failcount :
    ((fetchWithFallback (FetchState.mk [DataSource.mk ("a") 100 0 0] []) ("k") 50
      (fun _ => Except.ok 7) (some (fun _ => Except.error ("boom"))) false 60).2).sources
      = [DataSource.mk ("a") 100 1 50] := by
  norm_num [fetchWithFallback, checkSources, DataSource.isAvailable, List.insertionSort,
    List.orderedInsert, fetchLoop, updateSource, DataSource.recordFailure]

/-- C10, amended: when a source's adapter returns normally, the loop step
for that source (i) leaves every source's health state — in particular its
`fail_count` and `last_fail_time` — completely unchanged when the validator
rejects the value (returns False); (ii) records a failure for that source
when the validator raises (an exception from either the adapter or the
validator increments `fail_count`, not only an adapter exception); and
(iii) resets the source's `fail_count` to 0 exactly on a validator-passing
result. -/
theorem validator_reject_frame_amended (reg : List DataSource) (nm : String)
    (rest : List String) (cache : CacheDB) (key : String) (now ttl : ℚ)
    (fetcher : String → Except String ℚ) (f : ℚ → Except String Bool) (v : ℚ)
    (useCache : Bool) (h1 : fetcher nm = Except.ok v) :
    (f v = Except.ok false →
       fetchLoop reg (nm :: rest) cache key now ttl fetcher (some f) useCache
         = fetchLoop reg rest cache key now ttl fetcher (some f) useCache) ∧
    (∀ e, f v = Except.error e →
       fetchLoop reg (nm :: rest) cache key now ttl fetcher (some f) useCache
         = fetchLoop (updateSource reg nm (fun s => s.recordFailure now)) rest cache key now ttl
             fetcher (some f) useCache) ∧
    (f v = Except.ok true →
       (fetchLoop reg (nm :: rest) cache key now ttl fetcher (some f) useCache).2.1
         = updateSource reg nm DataSource.recordSuccess) := by
  refine ⟨?_, ?_, ?_⟩
  · intro hv; simp [fetchLoop, h1, hv]
  · intro e hv; simp [fetchLoop, h1, hv]
  · intro hv; simp [fetchLoop, h1, hv]

/-- C10, witness: the reject case of the amended theorem at a concrete
input — the registry (with its fail_count 2 and last_fail_time 0) passes
through the rejected attempt unchanged. -/
theorem validator_reject_frame_amended_witness :
    fetchLoop [DataSource.mk ("a") 100 2 0] [("a")] [] ("k") 5 60
        (fun _ => Except.ok 7) (some (fun _ => Except.ok false)) true
      = fetchLoop [DataSource.mk ("a") 100 2 0] [] [] ("k") 5 60
        (fun _ => Except.ok 7) (some (fun _ => Except.ok false)) true := by
  exact (validator_reject_frame_amended [DataSource.mk ("a") 100 2 0] ("a") [] [] ("k") 5 60
    (fun _ => Except.ok 7) (fun _ => Except.ok false) 7 true rfl).1 rfl
